import Mathlib

/-!
Verification development for the url-to-image screenshot service.

The service (server.js) exposes GET/POST /screenshot endpoints that validate
request parameters, launch a fresh headless browser per request, navigate to
the target URL, take a screenshot, re-encode it to WebP, and race the whole
pipeline against a 60 s overall timer.  This file gives a shallow embedding of
that code: JavaScript parameter values are modelled by an inductive JSVal,
the external effectful steps (browser launch, context/page creation,
navigation, screenshot, encoding, the three teardown closes, and wall-clock
time) are modelled by an Oracle of step outcomes, and each run produces a
result together with a trace of the externally observable events it performs.
-/

namespace UrlToImage

/-- Model of the JavaScript values that flow through the request parameters:
query-string parameters are strings or undefined, JSON-body options may also
be booleans or (integral) numbers.  Fractional numbers are not modelled; the
code only ever produces integral values on these paths. -/
inductive JSVal where
  | undef
  | str (s : String)
  | num (n : Int)
  | bool (b : Bool)
deriving DecidableEq

/-- JavaScript truthiness for the modelled values: undefined, the empty
string, 0 and false are falsy, everything else is truthy. -/
def jsTruthy : JSVal → Bool
  | .undef => false
  | .str s => !(s == "")
  | .num n => !(n == 0)
  | .bool b => b

/-- The JavaScript logical-or idiom (v || d): take v when truthy, else d. -/
def jsOr (v d : JSVal) : JSVal :=
  if jsTruthy v then v else d

/-- ES destructuring default: the default applies exactly when the value is
undefined (matching the headers of captureScreenshot in server.js). -/
def jsDefault (v d : JSVal) : JSVal :=
  match v with
  | .undef => d
  | w => w

/-- Whitespace characters skipped by JavaScript parseInt (the common ASCII
ones; exotic Unicode space characters are not modelled). -/
def isJsSpace (c : Char) : Bool :=
  c == ' ' || c == '\t' || c == '\n' || c == '\r' || c == '\x0b' || c == '\x0c'

/-- Numeric value of a list of decimal digit characters. -/
def decDigitsVal (cs : List Char) : Int :=
  cs.foldl (fun a c => a * 10 + (Int.ofNat c.toNat - 48)) 0

/-- Hexadecimal digit test. -/
def isHexDigitChar (c : Char) : Bool :=
  c.isDigit || ('a' ≤ c && c ≤ 'f') || ('A' ≤ c && c ≤ 'F')

/-- Numeric value of one hexadecimal digit character. -/
def hexDigitVal (c : Char) : Int :=
  if c.isDigit then Int.ofNat c.toNat - 48
  else if 'a' ≤ c && c ≤ 'f' then Int.ofNat c.toNat - 87
  else Int.ofNat c.toNat - 55

/-- Numeric value of a list of hexadecimal digit characters. -/
def hexDigitsVal (cs : List Char) : Int :=
  cs.foldl (fun a c => a * 16 + hexDigitVal c) 0

/-- JavaScript parseInt with no radix argument: skip leading whitespace, an
optional sign, then either a 0x/0X-prefixed hexadecimal literal or the
longest prefix of decimal digits; none models NaN (no digits at all). -/
def strParseInt (s : String) : Option Int :=
  let cs := s.toList.dropWhile isJsSpace
  let signAndRest : Int × List Char :=
    match cs with
    | '-' :: rest => (-1, rest)
    | '+' :: rest => (1, rest)
    | rest => (1, rest)
  match signAndRest with
  | (sign, body) =>
    match body with
    | '0' :: c :: rest =>
      if c == 'x' || c == 'X' then
        let ds := rest.takeWhile isHexDigitChar
        if ds.isEmpty then none else some (sign * hexDigitsVal ds)
      else
        let ds := (('0' :: c :: rest).takeWhile Char.isDigit)
        if ds.isEmpty then none else some (sign * decDigitsVal ds)
    | body =>
      let ds := body.takeWhile Char.isDigit
      if ds.isEmpty then none else some (sign * decDigitsVal ds)

/-- parseInt applied to a modelled JavaScript value: numbers round-trip
through their decimal string form (identity for integers); booleans and
undefined stringify to words that do not parse (NaN). -/
def jsParseInt : JSVal → Option Int
  | .str s => strParseInt s
  | .num n => some n
  | .bool _ => none
  | .undef => none

/-- The JavaScript idiom (parseInt(v) || d) used for widthNum/heightNum in
the GET handler: NaN and 0 are falsy, so both fall back to the default. -/
def jsOrInt (v : Option Int) (d : Int) : Int :=
  match v with
  | some n => if n = 0 then d else n
  | none => d

/-- Result of a successful WHATWG URL parse, to the precision isValidUrl
inspects: the scheme, lower-cased, with its trailing colon (the protocol
property). -/
structure ParsedUrl where
  protocol : String
deriving DecidableEq

/-- ASCII lower-casing of one character. -/
def asciiLower (c : Char) : Char :=
  if 'A' ≤ c && c ≤ 'Z' then Char.ofNat (c.toNat + 32) else c

/-- First character of a URL scheme: an ASCII letter. -/
def isSchemeStart (c : Char) : Bool := c.isAlpha

/-- Subsequent characters of a URL scheme. -/
def isSchemeTail (c : Char) : Bool :=
  c.isAlphanum || c == '+' || c == '-' || c == '.'

/-- Special schemes for which the WHATWG URL parser requires a nonempty
host (file is special too but permits an empty host). -/
def requiresHost (scheme : String) : Bool :=
  scheme == "http" || scheme == "https" || scheme == "ws" || scheme == "wss" ||
    scheme == "ftp"

/-- Model of the WHATWG URL constructor (new URL(s)) at the precision that
isValidUrl depends on: parsing succeeds only for an absolute URL, i.e. the
input must start with a valid scheme followed by a colon, and the special
network schemes additionally need a nonempty host part; finer host/path
validation performed by a real URL parser is not modelled.  none models the
TypeError thrown on an unparseable input. -/
def parseUrl (s : String) : Option ParsedUrl :=
  let cs := s.toList
  let schemeCs := cs.takeWhile (fun c => !(c == ':'))
  if schemeCs.length = cs.length then none
  else
    match schemeCs with
    | [] => none
    | c0 :: rest =>
      if !(isSchemeStart c0) then none
      else if !(rest.all isSchemeTail) then none
      else
        let scheme := String.mk ((c0 :: rest).map asciiLower)
        let after := cs.drop (schemeCs.length + 1)
        if requiresHost scheme then
          let host := after.dropWhile (fun c => c == '/')
          if host.isEmpty then none else some { protocol := scheme ++ ":" }
        else some { protocol := scheme ++ ":" }

/-- Direct embedding of isValidUrl from server.js: try to construct a URL
and accept exactly the http and https protocols; a parse failure (the catch
branch) yields false. -/
def isValidUrl (s : String) : Bool :=
  match parseUrl s with
  | some u => u.protocol == "http:" || u.protocol == "https:"
  | none => false

/-- isValidUrl applied to an arbitrary JSON-body value (the POST handler
passes req.body.url straight in).  The URL constructor stringifies its
argument; none of the stringifications of the modelled non-string values
("undefined", a bare integer, "true"/"false") is a valid http(s) URL. -/
def isValidUrlVal : JSVal → Bool
  | .str s => isValidUrl s
  | _ => false

/-- Embedding of the switch statement mapping the waitUntil request option
to a Playwright waitUntil value: the strict-equality cases for load and
domcontentloaded, with networkidle0, networkidle2 and every other value
falling through to networkidle. -/
def mapWaitUntil (w : JSVal) : String :=
  if w = JSVal.str "load" then "load"
  else if w = JSVal.str "domcontentloaded" then "domcontentloaded"
  else "networkidle"

/-- Embedding of the fullPage test in captureScreenshot:
fullPage === 'true' || fullPage === true (strict equality). -/
def fullPageFlag (v : JSVal) : Bool :=
  (v == JSVal.str "true") || (v == JSVal.bool true)

/-- The clip rectangle passed to page.screenshot; width/height are the
parseInt results (none models NaN reaching the option). -/
structure Clip where
  x : Int
  y : Int
  width : Option Int
  height : Option Int
deriving DecidableEq

/-- The options object built for page.screenshot (the image type field is
constant 'png' in the source and is omitted). -/
structure ShotOptions where
  fullPage : Bool
  clip : Option Clip
deriving DecidableEq

/-- Embedding of the screenshotOptions construction in captureScreenshot:
the fullPage flag is the strict-equality test, and the clip rectangle
(0, 0, parseInt(width), parseInt(height)) is attached exactly when the flag
is false. -/
def mkShotOptions (fullPage width height : JSVal) : ShotOptions :=
  if fullPageFlag fullPage then { fullPage := true, clip := none }
  else
    { fullPage := false
      clip := some { x := 0, y := 0, width := jsParseInt width, height := jsParseInt height } }

/-- Outcome of one external (awaited) step: success, or a thrown error
carrying its message. -/
inductive StepOutcome where
  | ok
  | fail (msg : String)
deriving DecidableEq

/-- Oracle fixing the behaviour of the external world for one request: the
outcome of each awaited browser/encoder step, the outcome of each teardown
close, and the wall-clock duration of the whole pipeline (used by the
Promise.race against the 60 s timer). -/
structure Oracle where
  launch : StepOutcome
  newContext : StepOutcome
  newPage : StepOutcome
  goto : StepOutcome
  shot : StepOutcome
  encode : StepOutcome
  closePage : StepOutcome
  closeContext : StepOutcome
  closeBrowser : StepOutcome
  pipelineMs : Nat
deriving DecidableEq

/-- Externally observable events of one pipeline run, in program order. -/
inductive Event where
  | launchBrowser
  | newContext (width height : Option Int)
  | newPage
  | goto (url : JSVal) (waitUntil : String) (timeoutMs : Option Int)
  | takeShot (opts : ShotOptions)
  | encodeWebp (quality : Option Int)
  | cleanupEnter
  | closePage
  | closeContext
  | closeBrowser
  | warnCleanup (msg : String)
deriving DecidableEq

/-- Recognizer for the cleanup-entry event. -/
def isCleanupEnter : Event → Bool
  | .cleanupEnter => true
  | _ => false

/-- Recognizer for the three teardown close events. -/
def isClose : Event → Bool
  | .closePage => true
  | .closeContext => true
  | .closeBrowser => true
  | _ => false

/-- Third guarded close of the finally block: if (browser) await
browser.close(); a failure is thrown to the enclosing catch. -/
def closeBrowserStep (hasBrowser : Bool) (cb : StepOutcome) : List Event :=
  if hasBrowser then
    Event.closeBrowser ::
      (match cb with
       | .ok => []
       | .fail m => [Event.warnCleanup m])
  else []

/-- Second guarded close of the finally block: if (context) await
context.close(); a failure skips the remaining close and is warned. -/
def closeContextStep (hasContext hasBrowser : Bool) (cc cb : StepOutcome) : List Event :=
  if hasContext then
    Event.closeContext ::
      (match cc with
       | .ok => closeBrowserStep hasBrowser cb
       | .fail m => [Event.warnCleanup m])
  else closeBrowserStep hasBrowser cb

/-- First guarded close of the finally block: if (page) await page.close();
a failure skips the remaining closes and is warned. -/
def closePageStep (hasPage hasContext hasBrowser : Bool)
    (cp cc cb : StepOutcome) : List Event :=
  if hasPage then
    Event.closePage ::
      (match cp with
       | .ok => closeContextStep hasContext hasBrowser cc cb
       | .fail m => [Event.warnCleanup m])
  else closeContextStep hasContext hasBrowser cc cb

/-- Embedding of the finally block of captureScreenshot: close page, then
context, then browser, each guarded by whether it was acquired, inside one
try whose catch logs a warning and swallows the error. -/
def cleanup (hasPage hasContext hasBrowser : Bool)
    (cp cc cb : StepOutcome) : List Event :=
  Event.cleanupEnter :: closePageStep hasPage hasContext hasBrowser cp cc cb

/-- The (opaque) successful pipeline output: an optimized WebP buffer. -/
inductive Image where
  | webp
deriving DecidableEq

/-- Options object passed to captureScreenshot (absent properties are
undefined, which triggers the destructuring defaults). -/
structure CaptureOptions where
  width : JSVal
  height : JSVal
  quality : JSVal
  fullPage : JSVal
  waitUntil : JSVal
  timeout : JSVal
deriving DecidableEq

/-- Embedding of captureScreenshot(url, options) from server.js.  The
result is the settled value of the returned promise (the optimized image,
or the rethrown error message) paired with the trace of external events the
run performs, the finally-block teardown included.  Failure of createBrowser
is caught inside createBrowser and rethrown with a fixed message; every
failure is rethrown by the catch block as Screenshot failed: followed by the
underlying message. -/
def captureScreenshot (url : JSVal) (options : CaptureOptions) (o : Oracle) :
    Except String Image × List Event :=
  let width := jsDefault options.width (.num 1200)
  let height := jsDefault options.height (.num 800)
  let quality := jsDefault options.quality (.num 80)
  let fullPage := jsDefault options.fullPage (.bool false)
  let waitUntil := jsDefault options.waitUntil (.str "networkidle")
  let timeout := jsDefault options.timeout (.num 30000)
  match o.launch with
  | .fail _ =>
    (.error "Screenshot failed: Failed to create browser instance",
     [Event.launchBrowser] ++ cleanup false false false o.closePage o.closeContext o.closeBrowser)
  | .ok =>
    match o.newContext with
    | .fail m =>
      (.error ("Screenshot failed: " ++ m),
       [Event.launchBrowser, Event.newContext (jsParseInt width) (jsParseInt height)]
         ++ cleanup false false true o.closePage o.closeContext o.closeBrowser)
    | .ok =>
      match o.newPage with
      | .fail m =>
        (.error ("Screenshot failed: " ++ m),
         [Event.launchBrowser, Event.newContext (jsParseInt width) (jsParseInt height),
          Event.newPage]
           ++ cleanup false true true o.closePage o.closeContext o.closeBrowser)
      | .ok =>
        match o.goto with
        | .fail m =>
          (.error ("Screenshot failed: " ++ m),
           [Event.launchBrowser, Event.newContext (jsParseInt width) (jsParseInt height),
            Event.newPage, Event.goto url (mapWaitUntil waitUntil) (jsParseInt timeout)]
             ++ cleanup true true true o.closePage o.closeContext o.closeBrowser)
        | .ok =>
          match o.shot with
          | .fail m =>
            (.error ("Screenshot failed: " ++ m),
             [Event.launchBrowser, Event.newContext (jsParseInt width) (jsParseInt height),
              Event.newPage, Event.goto url (mapWaitUntil waitUntil) (jsParseInt timeout),
              Event.takeShot (mkShotOptions fullPage width height)]
               ++ cleanup true true true o.closePage o.closeContext o.closeBrowser)
          | .ok =>
            match o.encode with
            | .fail m =>
              (.error ("Screenshot failed: " ++ m),
               [Event.launchBrowser, Event.newContext (jsParseInt width) (jsParseInt height),
                Event.newPage, Event.goto url (mapWaitUntil waitUntil) (jsParseInt timeout),
                Event.takeShot (mkShotOptions fullPage width height),
                Event.encodeWebp (jsParseInt quality)]
                 ++ cleanup true true true o.closePage o.closeContext o.closeBrowser)
            | .ok =>
              (.ok Image.webp,
               [Event.launchBrowser, Event.newContext (jsParseInt width) (jsParseInt height),
                Event.newPage, Event.goto url (mapWaitUntil waitUntil) (jsParseInt timeout),
                Event.takeShot (mkShotOptions fullPage width height),
                Event.encodeWebp (jsParseInt quality)]
                 ++ cleanup true true true o.closePage o.closeContext o.closeBrowser)

/-- The fixed overall request deadline raced against the pipeline. -/
def overallTimeoutMs : Nat := 60000

/-- Embedding of the Promise.race of the screenshot promise against the
60 s timer: the pipeline result wins exactly when the pipeline settles
strictly before the timer fires (a tie is not observable in practice and is
resolved in favour of the timer here); otherwise the rejection with the
fixed timeout message wins.  The losing pipeline keeps running unobserved,
so its trace (teardown included) still happens. -/
def race (res : Except String Image) (pipelineMs : Nat) : Except String Image :=
  if pipelineMs < overallTimeoutMs then res
  else .error "Screenshot request timeout"

/-- HTTP responses produced by the screenshot endpoints, to the precision
the claims need: a 400 JSON error, a 200 image body with its Content-Type
header, or a 500 JSON error with its error and message fields. -/
inductive Response where
  | badRequest (error : String)
  | okImage (contentType : String)
  | serverError (error message : String)
deriving DecidableEq

/-- HTTP status code of a modelled response. -/
def statusOf : Response → Nat
  | .badRequest _ => 400
  | .okImage _ => 200
  | .serverError _ _ => 500

/-- Query-string parameters of GET /screenshot: each is a string when
supplied, absent otherwise. -/
structure GetQuery where
  url : Option String
  width : Option String
  height : Option String
  quality : Option String
  fullPage : Option String
  waitUntil : Option String
  timeout : Option String
deriving DecidableEq

/-- A query parameter as the JavaScript value the handler sees. -/
def qs : Option String → JSVal
  | none => .undef
  | some s => .str s

/-- The widthNum computed by the GET handler: parseInt(width) || 1200. -/
def getWidthNum (q : GetQuery) : Int :=
  jsOrInt (jsParseInt (qs q.width)) 1200

/-- The heightNum computed by the GET handler: parseInt(height) || 800. -/
def getHeightNum (q : GetQuery) : Int :=
  jsOrInt (jsParseInt (qs q.height)) 800

/-- The capture options object the GET handler passes to captureScreenshot. -/
def getCaptureOptions (q : GetQuery) : CaptureOptions :=
  { width := .num (getWidthNum q)
    height := .num (getHeightNum q)
    quality := jsOr (qs q.quality) (.num 80)
    fullPage := qs q.fullPage
    waitUntil := jsOr (qs q.waitUntil) (.str "networkidle2")
    timeout := jsOr (qs q.timeout) (.num 30000) }

/-- Embedding of the GET /screenshot handler: require a truthy url, check
isValidUrl, bounds-check widthNum/heightNum, then run captureScreenshot
raced against the 60 s timer; a race win yields the 200 image/webp
response, any rejection yields the 500 response with the rejection message.
The trace records the external events performed on behalf of this request
(empty on the pure validation failures). -/
def getScreenshot (q : GetQuery) (o : Oracle) : Response × List Event :=
  match q.url with
  | none => (.badRequest "URL parameter is required", [])
  | some u =>
    if u = "" then (.badRequest "URL parameter is required", [])
    else if isValidUrl u = false then
      (.badRequest "Invalid URL format. Must include http:// or https://", [])
    else
      if getWidthNum q < 100 ∨ 4000 < getWidthNum q then
        (.badRequest "Width must be between 100 and 4000 pixels", [])
      else if getHeightNum q < 100 ∨ 4000 < getHeightNum q then
        (.badRequest "Height must be between 100 and 4000 pixels", [])
      else
        let pr := captureScreenshot (.str u) (getCaptureOptions q) o
        match race pr.1 o.pipelineMs with
        | .ok _ => (.okImage "image/webp", pr.2)
        | .error m => (.serverError "Failed to capture screenshot" m, pr.2)

/-- JSON body of POST /screenshot: a url value and an options object
(absent options destructure to the empty object, i.e. all fields
undefined). -/
structure PostBody where
  url : JSVal
  options : CaptureOptions
deriving DecidableEq

/-- Embedding of the POST /screenshot handler: require a truthy url, check
isValidUrl, then run captureScreenshot on the raw options raced against the
60 s timer.  Note the POST handler performs no dimension bounds check. -/
def postScreenshot (b : PostBody) (o : Oracle) : Response × List Event :=
  if jsTruthy b.url = false then (.badRequest "URL is required in request body", [])
  else if isValidUrlVal b.url = false then
    (.badRequest "Invalid URL format. Must include http:// or https://", [])
  else
    let pr := captureScreenshot b.url b.options o
    match race pr.1 o.pipelineMs with
    | .ok _ => (.okImage "image/webp", pr.2)
    | .error m => (.serverError "Failed to capture screenshot" m, pr.2)

/-- The navigation timeout passed to page.goto for a GET request:
parseInt of (timeout || 30000). -/
def getNavTimeout (q : GetQuery) : Option Int :=
  jsParseInt (jsOr (qs q.timeout) (.num 30000))

/-- The quality passed to the WebP encoder for a GET request:
parseInt of (quality || 80). -/
def getQualityNum (q : GetQuery) : Option Int :=
  jsParseInt (jsOr (qs q.quality) (.num 80))

/-- An all-green oracle: every step succeeds and the pipeline settles after
one second. -/
def oracleAllOk : Oracle :=
  { launch := .ok, newContext := .ok, newPage := .ok, goto := .ok
    shot := .ok, encode := .ok
    closePage := .ok, closeContext := .ok, closeBrowser := .ok
    pipelineMs := 1000 }

/-- A query with every parameter absent. -/
def emptyQuery : GetQuery :=
  { url := none, width := none, height := none, quality := none
    fullPage := none, waitUntil := none, timeout := none }

/-- Capture options with every field undefined (the POST default). -/
def emptyOptions : CaptureOptions :=
  { width := .undef, height := .undef, quality := .undef
    fullPage := .undef, waitUntil := .undef, timeout := .undef }

/-- A GET query whose width parameter is the non-numeric string abc. -/
def qWidthAbc : GetQuery :=
  { emptyQuery with url := some "https://example.com", width := some "abc" }

/-- A POST body requesting a 5000-pixel-wide viewport. -/
def bWidth5000 : PostBody :=
  { url := .str "https://example.com"
    options := { emptyOptions with width := .num 5000, height := .num 600 } }

/-- A fully valid concrete GET query: 800 by 600 at quality 85. -/
def qValid : GetQuery :=
  { emptyQuery with
    url := some "https://example.com"
    width := some "800"
    height := some "600"
    quality := some "85" }

/-- A GET query asking for a 5000-pixel width. -/
def qWidth5000 : GetQuery :=
  { emptyQuery with url := some "https://example.com", width := some "5000" }

/-- A GET query supplying a 70 s navigation timeout. -/
def qTimeout70 : GetQuery :=
  { emptyQuery with url := some "https://example.com", timeout := some "70000" }

/-- A GET query supplying quality 150. -/
def qQuality150 : GetQuery :=
  { emptyQuery with url := some "https://example.com", quality := some "150" }

/-! Helper lemmas about the teardown block. -/

lemma closeBrowserStep_countP_cleanupEnter (hb : Bool) (cb : StepOutcome) :
    (closeBrowserStep hb cb).countP isCleanupEnter = 0 := by
  cases hb <;> cases cb <;>
    simp [closeBrowserStep, isCleanupEnter]

lemma closeContextStep_countP_cleanupEnter (hc hb : Bool) (cc cb : StepOutcome) :
    (closeContextStep hc hb cc cb).countP isCleanupEnter = 0 := by
  cases hc <;> cases cc <;>
    simp [closeContextStep, isCleanupEnter, closeBrowserStep_countP_cleanupEnter]

lemma closePageStep_countP_cleanupEnter (hp hc hb : Bool) (cp cc cb : StepOutcome) :
    (closePageStep hp hc hb cp cc cb).countP isCleanupEnter = 0 := by
  cases hp <;> cases cp <;>
    simp [closePageStep, isCleanupEnter, closeContextStep_countP_cleanupEnter]

lemma cleanup_countP_cleanupEnter (hp hc hb : Bool) (cp cc cb : StepOutcome) :
    (cleanup hp hc hb cp cc cb).countP isCleanupEnter = 1 := by
  simp [cleanup, isCleanupEnter, closePageStep_countP_cleanupEnter]

lemma closeBrowserStep_filter_isClose (hb : Bool) (cb : StepOutcome) :
    ((closeBrowserStep hb cb).filter isClose).Sublist [Event.closeBrowser] := by
  cases hb <;> cases cb <;> simp [closeBrowserStep, isClose]

lemma closeContextStep_filter_isClose (hc hb : Bool) (cc cb : StepOutcome) :
    ((closeContextStep hc hb cc cb).filter isClose).Sublist
      [Event.closeContext, Event.closeBrowser] := by
  cases hc with
  | false =>
    have h1 : ((closeContextStep false hb cc cb).filter isClose).Sublist
        [Event.closeBrowser] := by
      simpa [closeContextStep] using closeBrowserStep_filter_isClose hb cb
    have h2 : ([Event.closeBrowser] : List Event).Sublist
        [Event.closeContext, Event.closeBrowser] := by decide
    exact h1.trans h2
  | true =>
    cases cc with
    | ok =>
      simpa [closeContextStep, isClose] using
        List.Sublist.cons₂ Event.closeContext (closeBrowserStep_filter_isClose hb cb)
    | fail m => simp [closeContextStep, isClose]

lemma closePageStep_filter_isClose (hp hc hb : Bool) (cp cc cb : StepOutcome) :
    ((closePageStep hp hc hb cp cc cb).filter isClose).Sublist
      [Event.closePage, Event.closeContext, Event.closeBrowser] := by
  cases hp with
  | false =>
    have h1 : ((closePageStep false hc hb cp cc cb).filter isClose).Sublist
        [Event.closeContext, Event.closeBrowser] := by
      simpa [closePageStep] using closeContextStep_filter_isClose hc hb cc cb
    have h2 : ([Event.closeContext, Event.closeBrowser] : List Event).Sublist
        [Event.closePage, Event.closeContext, Event.closeBrowser] := by decide
    exact h1.trans h2
  | true =>
    cases cp with
    | ok =>
      simpa [closePageStep, isClose] using
        List.Sublist.cons₂ Event.closePage (closeContextStep_filter_isClose hc hb cc cb)
    | fail m => simp [closePageStep, isClose]

lemma cleanup_filter_isClose (hp hc hb : Bool) (cp cc cb : StepOutcome) :
    ((cleanup hp hc hb cp cc cb).filter isClose).Sublist
      [Event.closePage, Event.closeContext, Event.closeBrowser] := by
  simp [cleanup, isClose, closePageStep_filter_isClose]

lemma captureScreenshot_countP_cleanupEnter (url : JSVal) (opts : CaptureOptions)
    (o : Oracle) :
    ((captureScreenshot url opts o).2).countP isCleanupEnter = 1 := by
  obtain ⟨l, nc, np, g, sh, en, cp, cc, cb, ms⟩ := o
  cases l <;> cases nc <;> cases np <;> cases g <;> cases sh <;> cases en <;>
    simp [captureScreenshot, isCleanupEnter, cleanup_countP_cleanupEnter]

lemma captureScreenshot_filter_isClose (url : JSVal) (opts : CaptureOptions)
    (o : Oracle) :
    (((captureScreenshot url opts o).2).filter isClose).Sublist
      [Event.closePage, Event.closeContext, Event.closeBrowser] := by
  obtain ⟨l, nc, np, g, sh, en, cp, cc, cb, ms⟩ := o
  cases l <;> cases nc <;> cases np <;> cases g <;> cases sh <;> cases en <;>
    simp [captureScreenshot, isClose] <;>
    exact cleanup_filter_isClose _ _ _ _ _ _

lemma captureScreenshot_result_ignores_teardown (url : JSVal) (opts : CaptureOptions)
    (o : Oracle) (cp cc cb : StepOutcome) :
    (captureScreenshot url opts
        { o with closePage := cp, closeContext := cc, closeBrowser := cb }).1
      = (captureScreenshot url opts o).1 := by
  obtain ⟨l, nc, np, g, sh, en, cp0, cc0, cb0, ms⟩ := o
  cases l <;> cases nc <;> cases np <;> cases g <;> cases sh <;> cases en <;> rfl

lemma captureScreenshot_release_mem (url : JSVal) (opts : CaptureOptions)
    (l nc np g sh en : StepOutcome) (ms : Nat) :
    (l = .ok →
      Event.closeBrowser ∈
        (captureScreenshot url opts ⟨l, nc, np, g, sh, en, .ok, .ok, .ok, ms⟩).2)
    ∧ (l = .ok → nc = .ok →
      Event.closeContext ∈
        (captureScreenshot url opts ⟨l, nc, np, g, sh, en, .ok, .ok, .ok, ms⟩).2)
    ∧ (l = .ok → nc = .ok → np = .ok →
      Event.closePage ∈
        (captureScreenshot url opts ⟨l, nc, np, g, sh, en, .ok, .ok, .ok, ms⟩).2) := by
  refine ⟨?_, ?_, ?_⟩
  · intro hl
    subst hl
    cases nc <;> cases np <;> cases g <;> cases sh <;> cases en <;>
      simp [captureScreenshot, cleanup, closePageStep, closeContextStep, closeBrowserStep]
  · intro hl hnc
    subst hl; subst hnc
    cases np <;> cases g <;> cases sh <;> cases en <;>
      simp [captureScreenshot, cleanup, closePageStep, closeContextStep, closeBrowserStep]
  · intro hl hnc hnp
    subst hl; subst hnc; subst hnp
    cases g <;> cases sh <;> cases en <;>
      simp [captureScreenshot, cleanup, closePageStep, closeContextStep, closeBrowserStep]

lemma getScreenshot_trace_valid (q : GetQuery) (o : Oracle) (u : String)
    (hu : q.url = some u) (hne : u ≠ "") (hv : isValidUrl u = true)
    (hw1 : 100 ≤ getWidthNum q) (hw2 : getWidthNum q ≤ 4000)
    (hh1 : 100 ≤ getHeightNum q) (hh2 : getHeightNum q ≤ 4000) :
    (getScreenshot q o).2 = (captureScreenshot (.str u) (getCaptureOptions q) o).2 := by
  have hv' : ¬ isValidUrl u = false := by simp [hv]
  have hwr : ¬ (getWidthNum q < 100 ∨ 4000 < getWidthNum q) := by omega
  have hhr : ¬ (getHeightNum q < 100 ∨ 4000 < getHeightNum q) := by omega
  simp only [getScreenshot, hu, if_neg hne, if_neg hv', if_neg hwr, if_neg hhr]
  cases hr : race (captureScreenshot (.str u) (getCaptureOptions q) o).1 o.pipelineMs <;>
    simp [hr]

/-- C1: for every acquired browser session, the release (finally) block runs
exactly once on every exit path of captureScreenshot; the closes it performs
occur in reverse order of acquisition (page, then context, then browser),
each at most once; when no close fails, every acquired resource is closed
(browser always, context when it was created, page when it was created); the
teardown outcomes never change the primary result (teardown failures are
logged and swallowed); and for every GET request that passes validation,
including runs lost to the overall-timeout race (any pipelineMs), the
request trace contains exactly one release. -/
theorem claim1_session_release_invariant :
    ∀ (url : JSVal) (opts : CaptureOptions) (o : Oracle),
      ((captureScreenshot url opts o).2).countP isCleanupEnter = 1
      ∧ (((captureScreenshot url opts o).2).filter isClose).Sublist
          [Event.closePage, Event.closeContext, Event.closeBrowser]
      ∧ (∀ cp cc cb : StepOutcome,
          (captureScreenshot url opts
              { o with closePage := cp, closeContext := cc, closeBrowser := cb }).1
            = (captureScreenshot url opts o).1)
      ∧ (∀ (l nc np g sh en : StepOutcome) (ms : Nat),
          (l = .ok →
            Event.closeBrowser ∈
              (captureScreenshot url opts ⟨l, nc, np, g, sh, en, .ok, .ok, .ok, ms⟩).2)
          ∧ (l = .ok → nc = .ok →
            Event.closeContext ∈
              (captureScreenshot url opts ⟨l, nc, np, g, sh, en, .ok, .ok, .ok, ms⟩).2)
          ∧ (l = .ok → nc = .ok → np = .ok →
            Event.closePage ∈
              (captureScreenshot url opts ⟨l, nc, np, g, sh, en, .ok, .ok, .ok, ms⟩).2))
      ∧ (∀ (q : GetQuery) (u : String), q.url = some u → u ≠ "" →
          isValidUrl u = true →
          100 ≤ getWidthNum q → getWidthNum q ≤ 4000 →
          100 ≤ getHeightNum q → getHeightNum q ≤ 4000 →
          ((getScreenshot q o).2).countP isCleanupEnter = 1) := by
  intro url opts o
  refine ⟨captureScreenshot_countP_cleanupEnter url opts o,
    captureScreenshot_filter_isClose url opts o,
    fun cp cc cb => captureScreenshot_result_ignores_teardown url opts o cp cc cb,
    fun l nc np g sh en ms => captureScreenshot_release_mem url opts l nc np g sh en ms,
    ?_⟩
  intro q u hu hne hv hw1 hw2 hh1 hh2
  rw [getScreenshot_trace_valid q o u hu hne hv hw1 hw2 hh1 hh2]
  exact captureScreenshot_countP_cleanupEnter _ _ _

/-- Witness for C1: a concrete successful run releases exactly once, and a
concrete run whose navigation times out still closes the browser. -/
theorem claim1_session_release_invariant_witness :
    ((captureScreenshot (.str "https://example.com") emptyOptions oracleAllOk).2).countP
        isCleanupEnter = 1
    ∧ Event.closeBrowser ∈
        (captureScreenshot (.str "https://example.com") emptyOptions
          ⟨.ok, .ok, .ok, .fail "Timeout 30000ms exceeded", .ok, .ok, .ok, .ok, .ok,
            1000⟩).2 := by
  constructor
  · exact (claim1_session_release_invariant (.str "https://example.com") emptyOptions
      oracleAllOk).1
  · exact ((claim1_session_release_invariant (.str "https://example.com") emptyOptions
      oracleAllOk).2.2.2.1 .ok .ok .ok (.fail "Timeout 30000ms exceeded") .ok .ok
      1000).1 rfl

lemma getScreenshot_badRequest_cases (q : GetQuery) (o : Oracle)
    (h : statusOf (getScreenshot q o).1 = 400) :
    (getScreenshot q o).1 = .badRequest "URL parameter is required"
    ∨ (getScreenshot q o).1 = .badRequest "Invalid URL format. Must include http:// or https://"
    ∨ (getScreenshot q o).1 = .badRequest "Width must be between 100 and 4000 pixels"
    ∨ (getScreenshot q o).1 = .badRequest "Height must be between 100 and 4000 pixels" := by
  cases hqu : q.url with
  | none => simp [getScreenshot, hqu]
  | some u =>
    by_cases hne : u = ""
    · simp [getScreenshot, hqu, hne]
    · by_cases hv : isValidUrl u = false
      · simp [getScreenshot, hqu, hne, hv]
      · by_cases hwc : getWidthNum q < 100 ∨ 4000 < getWidthNum q
        · simp [getScreenshot, hqu, hne, hv, hwc]
        · by_cases hhc : getHeightNum q < 100 ∨ 4000 < getHeightNum q
          · simp [getScreenshot, hqu, hne, hv, hwc, hhc]
          · exfalso
            revert h
            simp only [getScreenshot, hqu, if_neg hne, if_neg hv, if_neg hwc, if_neg hhc]
            cases hr : race (captureScreenshot (.str u) (getCaptureOptions q) o).1
                o.pipelineMs <;>
              simp [hr, statusOf]

lemma postScreenshot_badRequest_cases (b : PostBody) (o : Oracle)
    (h : statusOf (postScreenshot b o).1 = 400) :
    (postScreenshot b o).1 = .badRequest "URL is required in request body"
    ∨ (postScreenshot b o).1 = .badRequest "Invalid URL format. Must include http:// or https://" := by
  by_cases ht : jsTruthy b.url = false
  · simp [postScreenshot, ht]
  · by_cases hv : isValidUrlVal b.url = false
    · simp [postScreenshot, ht, hv]
    · exfalso
      revert h
      simp only [postScreenshot, if_neg ht, if_neg hv]
      cases hr : race (captureScreenshot b.url b.options o).1 o.pipelineMs <;>
        simp [hr, statusOf]

/-- C4: a request with no url parameter always gets the 400 missing-parameter
client error naming the required URL, on both endpoints (on GET also for the
empty-string value, which JavaScript treats as absent), never a server error,
and no browser session is ever acquired on this path. -/
theorem claim4_missing_url :
    (∀ (q : GetQuery) (o : Oracle), q.url = none ∨ q.url = some "" →
        (getScreenshot q o).1 = .badRequest "URL parameter is required"
        ∧ statusOf (getScreenshot q o).1 = 400
        ∧ Event.launchBrowser ∉ (getScreenshot q o).2)
    ∧ (∀ (b : PostBody) (o : Oracle), jsTruthy b.url = false →
        (postScreenshot b o).1 = .badRequest "URL is required in request body"
        ∧ statusOf (postScreenshot b o).1 = 400
        ∧ Event.launchBrowser ∉ (postScreenshot b o).2) := by
  constructor
  · intro q o h
    rcases h with h | h <;> simp [getScreenshot, h, statusOf]
  · intro b o h
    simp [postScreenshot, h, statusOf]

/-- Witness for C4: the empty GET query is rejected with the missing-URL
message and acquires no browser. -/
theorem claim4_missing_url_witness :
    (getScreenshot emptyQuery oracleAllOk).1 = .badRequest "URL parameter is required"
    ∧ Event.launchBrowser ∉ (getScreenshot emptyQuery oracleAllOk).2 := by
  have h := claim4_missing_url.1 emptyQuery oracleAllOk (Or.inl rfl)
  exact ⟨h.1, h.2.2⟩

/-- C9: isValidUrl accepts a string exactly when it parses as an absolute
URL whose protocol is http: or https:; on both endpoints, a present but
invalid url is rejected with the 400 invalid-URL error and the request
performs no browser work at all (empty trace). -/
theorem claim9_url_scheme_validation :
    (∀ s : String, isValidUrl s = true ↔
        ∃ u : ParsedUrl, parseUrl s = some u
          ∧ (u.protocol = "http:" ∨ u.protocol = "https:"))
    ∧ (∀ (q : GetQuery) (o : Oracle) (u : String), q.url = some u → u ≠ "" →
        isValidUrl u = false →
        (getScreenshot q o).1
            = .badRequest "Invalid URL format. Must include http:// or https://"
        ∧ (getScreenshot q o).2 = [])
    ∧ (∀ (b : PostBody) (o : Oracle), jsTruthy b.url = true →
        isValidUrlVal b.url = false →
        (postScreenshot b o).1
            = .badRequest "Invalid URL format. Must include http:// or https://"
        ∧ (postScreenshot b o).2 = []) := by
  refine ⟨?_, ?_, ?_⟩
  · intro s
    unfold isValidUrl
    cases h : parseUrl s with
    | none => simp
    | some u => simp [h, or_comm]
  · intro q o u hu hne hv
    simp [getScreenshot, hu, hne, hv]
  · intro b o ht hv
    simp [postScreenshot, ht, hv]

/-- Witness for C9: an ftp URL parses but is rejected, an unparseable string
is rejected, and a GET request carrying the ftp URL gets the invalid-URL
error without any browser work. -/
theorem claim9_url_scheme_validation_witness :
    isValidUrl "ftp://host" = false
    ∧ isValidUrl "not-a-url" = false
    ∧ (getScreenshot { emptyQuery with url := some "ftp://host" } oracleAllOk).1
        = .badRequest "Invalid URL format. Must include http:// or https://"
    ∧ (getScreenshot { emptyQuery with url := some "ftp://host" } oracleAllOk).2 = [] := by
  have h := claim9_url_scheme_validation.2.1
    { emptyQuery with url := some "ftp://host" } oracleAllOk "ftp://host" rfl
    (by decide) (by decide)
  exact ⟨by decide, by decide, h.1, h.2⟩

/-- C7: when the fullPage flag is off, the screenshot options carry the
clip rectangle exactly (0, 0, width, height) (the parseInt of the width and
height in effect); when it is on, the options request a full-page capture
and carry no clip at all, so nothing restricts the captured height; and
whenever a run of captureScreenshot reaches the screenshot step, the
options it passes are exactly these. -/
theorem claim7_capture_clipping :
    (∀ fp w h : JSVal, fullPageFlag fp = false →
        mkShotOptions fp w h =
          { fullPage := false
            clip := some { x := 0, y := 0, width := jsParseInt w, height := jsParseInt h } })
    ∧ (∀ fp w h : JSVal, fullPageFlag fp = true →
        mkShotOptions fp w h = { fullPage := true, clip := none })
    ∧ (∀ (url : JSVal) (opts : CaptureOptions) (sh en cp cc cb : StepOutcome) (ms : Nat),
        Event.takeShot
            (mkShotOptions (jsDefault opts.fullPage (.bool false))
              (jsDefault opts.width (.num 1200)) (jsDefault opts.height (.num 800)))
          ∈ (captureScreenshot url opts
              ⟨.ok, .ok, .ok, .ok, sh, en, cp, cc, cb, ms⟩).2) := by
  refine ⟨?_, ?_, ?_⟩
  · intro fp w h hf
    simp [mkShotOptions, hf]
  · intro fp w h hf
    simp [mkShotOptions, hf]
  · intro url opts sh en cp cc cb ms
    cases sh <;> cases en <;> simp [captureScreenshot]

/-- Witness for C7: with fullPage absent and the default 1200 by 800
viewport, a successful run screenshots with the clip (0, 0, 1200, 800). -/
theorem claim7_capture_clipping_witness :
    mkShotOptions JSVal.undef (.num 1200) (.num 800)
        = { fullPage := false
            clip := some { x := 0, y := 0, width := some 1200, height := some 800 } }
    ∧ Event.takeShot (mkShotOptions (.bool false) (.num 1200) (.num 800))
        ∈ (captureScreenshot (.str "https://example.com") emptyOptions
            ⟨.ok, .ok, .ok, .ok, .ok, .ok, .ok, .ok, .ok, 1000⟩).2 := by
  constructor
  · exact claim7_capture_clipping.1 JSVal.undef (.num 1200) (.num 800) (by decide)
  · exact claim7_capture_clipping.2.2 (.str "https://example.com") emptyOptions
      .ok .ok .ok .ok .ok 1000

/-- C8: the waitUntil switch maps load and domcontentloaded to themselves,
the legacy aliases networkidle0 and networkidle2 to networkidle, and every
other value (the default arm) to networkidle as well; the mapping is total
into the three Playwright policies, and no 400 response of either endpoint
concerns the wait policy (the only client errors are about the url and the
dimensions). -/
theorem claim8_wait_policy_mapping :
    mapWaitUntil (.str "load") = "load"
    ∧ mapWaitUntil (.str "domcontentloaded") = "domcontentloaded"
    ∧ mapWaitUntil (.str "networkidle0") = "networkidle"
    ∧ mapWaitUntil (.str "networkidle2") = "networkidle"
    ∧ (∀ v : JSVal, v ≠ JSVal.str "load" → v ≠ JSVal.str "domcontentloaded" →
        mapWaitUntil v = "networkidle")
    ∧ (∀ (q : GetQuery) (o : Oracle), statusOf (getScreenshot q o).1 = 400 →
        (getScreenshot q o).1 = .badRequest "URL parameter is required"
        ∨ (getScreenshot q o).1
            = .badRequest "Invalid URL format. Must include http:// or https://"
        ∨ (getScreenshot q o).1 = .badRequest "Width must be between 100 and 4000 pixels"
        ∨ (getScreenshot q o).1
            = .badRequest "Height must be between 100 and 4000 pixels") := by
  refine ⟨rfl, rfl, rfl, rfl, ?_, ?_⟩
  · intro v h1 h2
    simp [mapWaitUntil, h1, h2]
  · exact fun q o h => getScreenshot_badRequest_cases q o h

/-- Witness for C8: the unknown value networkidle5 maps to networkidle, and
the sole 400 arising with waitUntil set to garbage on an otherwise empty
query is the missing-URL error. -/
theorem claim8_wait_policy_mapping_witness :
    mapWaitUntil (.str "networkidle5") = "networkidle"
    ∧ ((getScreenshot { emptyQuery with waitUntil := some "garbage" } oracleAllOk).1
          = .badRequest "URL parameter is required"
        ∨ (getScreenshot { emptyQuery with waitUntil := some "garbage" } oracleAllOk).1
            = .badRequest "Invalid URL format. Must include http:// or https://"
        ∨ (getScreenshot { emptyQuery with waitUntil := some "garbage" } oracleAllOk).1
            = .badRequest "Width must be between 100 and 4000 pixels"
        ∨ (getScreenshot { emptyQuery with waitUntil := some "garbage" } oracleAllOk).1
            = .badRequest "Height must be between 100 and 4000 pixels") := by
  constructor
  · exact claim8_wait_policy_mapping.2.2.2.2.1 (.str "networkidle5") (by decide) (by decide)
  · exact claim8_wait_policy_mapping.2.2.2.2.2
      { emptyQuery with waitUntil := some "garbage" } oracleAllOk (by decide)

/-- C10: the fullPage flag is on exactly for the string true or the boolean
true; every other value yields a viewport-clipped capture (the clipped
options are still produced, never an error). -/
theorem claim10_fullpage_strict_equality :
    fullPageFlag (.str "true") = true
    ∧ fullPageFlag (.bool true) = true
    ∧ (∀ v : JSVal, v ≠ JSVal.str "true" → v ≠ JSVal.bool true →
        fullPageFlag v = false
        ∧ ∀ w h : JSVal, mkShotOptions v w h =
            { fullPage := false
              clip := some { x := 0, y := 0, width := jsParseInt w, height := jsParseInt h } }) := by
  refine ⟨rfl, rfl, ?_⟩
  intro v h1 h2
  have hf : fullPageFlag v = false := by
    simp [fullPageFlag, h1, h2]
  exact ⟨hf, fun w h => by simp [mkShotOptions, hf]⟩

/-- Witness for C10: the string True (capitalized), the string 1 and the
string yes all leave the flag off and produce a clipped capture. -/
theorem claim10_fullpage_strict_equality_witness :
    fullPageFlag (.str "True") = false
    ∧ fullPageFlag (.str "1") = false
    ∧ fullPageFlag (.str "yes") = false
    ∧ mkShotOptions (.str "True") (.num 800) (.num 600)
        = { fullPage := false
            clip := some { x := 0, y := 0, width := some 800, height := some 600 } } := by
  refine ⟨?_, ?_, ?_, ?_⟩
  · exact (claim10_fullpage_strict_equality.2.2 (.str "True") (by decide) (by decide)).1
  · exact (claim10_fullpage_strict_equality.2.2 (.str "1") (by decide) (by decide)).1
  · exact (claim10_fullpage_strict_equality.2.2 (.str "yes") (by decide) (by decide)).1
  · exact (claim10_fullpage_strict_equality.2.2 (.str "True") (by decide) (by decide)).2
      (.num 800) (.num 600)

/-- C6: a GET request whose url is a valid http(s) URL, whose effective
width and height lie in [100, 4000] and whose effective quality lies in
[1, 100] is answered either with the 200 image response whose Content-Type
is the configured output format image/webp, or with a 500 server error —
never with a client error. -/
theorem claim6_valid_request_no_client_error :
    ∀ (q : GetQuery) (o : Oracle) (u : String),
      q.url = some u → u ≠ "" → isValidUrl u = true →
      100 ≤ getWidthNum q → getWidthNum q ≤ 4000 →
      100 ≤ getHeightNum q → getHeightNum q ≤ 4000 →
      (∃ n, getQualityNum q = some n ∧ 1 ≤ n ∧ n ≤ 100) →
      ((getScreenshot q o).1 = .okImage "image/webp"
        ∨ ∃ m, (getScreenshot q o).1 = .serverError "Failed to capture screenshot" m)
      ∧ statusOf (getScreenshot q o).1 ≠ 400 := by
  intro q o u hu hne hv hw1 hw2 hh1 hh2 _hq
  have hv' : ¬ isValidUrl u = false := by simp [hv]
  have hwc : ¬ (getWidthNum q < 100 ∨ 4000 < getWidthNum q) := by omega
  have hhc : ¬ (getHeightNum q < 100 ∨ 4000 < getHeightNum q) := by omega
  constructor
  · simp only [getScreenshot, hu, if_neg hne, if_neg hv', if_neg hwc, if_neg hhc]
    cases hr : race (captureScreenshot (.str u) (getCaptureOptions q) o).1 o.pipelineMs with
    | ok img => exact Or.inl (by simp [hr])
    | error m => exact Or.inr ⟨m, by simp [hr]⟩
  · simp only [getScreenshot, hu, if_neg hne, if_neg hv', if_neg hwc, if_neg hhc]
    cases hr : race (captureScreenshot (.str u) (getCaptureOptions q) o).1 o.pipelineMs <;>
      simp [hr, statusOf]

/-- Witness for C6: a concrete valid request under an all-green oracle gets
the 200 image/webp response (the left disjunct). -/
theorem claim6_valid_request_no_client_error_witness :
    ((getScreenshot qValid oracleAllOk).1 = .okImage "image/webp"
      ∨ ∃ m, (getScreenshot qValid oracleAllOk).1
          = .serverError "Failed to capture screenshot" m) := by
  exact (claim6_valid_request_no_client_error qValid oracleAllOk "https://example.com"
    rfl (by decide) (by decide) (by decide) (by decide) (by decide) (by decide)
    ⟨85, by decide, by decide, by decide⟩).1

/-- Counterexample to C2 as stated: a GET request with the non-numeric
width abc is not rejected — parseInt yields NaN, the || default silently
substitutes 1200, the request succeeds and a browser session is acquired;
and a POST request with width 5000 (outside [100, 4000]) is not rejected
either — the POST handler has no dimension validation at all, a session is
acquired and navigation occurs. -/
theorem claim2_dimension_validation_counterexample :
    (getScreenshot qWidthAbc oracleAllOk).1 = .okImage "image/webp"
    ∧ Event.launchBrowser ∈ (getScreenshot qWidthAbc oracleAllOk).2
    ∧ getWidthNum qWidthAbc = 1200
    ∧ (postScreenshot bWidth5000 oracleAllOk).1 = .okImage "image/webp"
    ∧ Event.launchBrowser ∈ (postScreenshot bWidth5000 oracleAllOk).2
    ∧ Event.goto (.str "https://example.com") "networkidle" (some 30000)
        ∈ (postScreenshot bWidth5000 oracleAllOk).2 := by decide

/-- C2 (amended): on the GET endpoint, a supplied width or height whose
parseInt value is a nonzero integer outside [100, 4000] is rejected with the
corresponding dimension client error before any browser session is acquired
(width is checked first); a width or height that parses to NaN or 0 instead
silently falls back to the 1200 or 800 default; and the POST endpoint
performs no dimension validation at all — its only client errors concern
the url. -/
theorem claim2_dimension_validation_amended :
    (∀ (q : GetQuery) (o : Oracle) (u w : String) (n : Int),
        q.url = some u → u ≠ "" → isValidUrl u = true →
        q.width = some w → strParseInt w = some n → n ≠ 0 → (n < 100 ∨ 4000 < n) →
        (getScreenshot q o).1 = .badRequest "Width must be between 100 and 4000 pixels"
        ∧ (getScreenshot q o).2 = [])
    ∧ (∀ (q : GetQuery) (o : Oracle) (u hgt : String) (n : Int),
        q.url = some u → u ≠ "" → isValidUrl u = true →
        100 ≤ getWidthNum q → getWidthNum q ≤ 4000 →
        q.height = some hgt → strParseInt hgt = some n → n ≠ 0 → (n < 100 ∨ 4000 < n) →
        (getScreenshot q o).1 = .badRequest "Height must be between 100 and 4000 pixels"
        ∧ (getScreenshot q o).2 = [])
    ∧ (∀ (q : GetQuery) (w : String), q.width = some w → strParseInt w = none →
        getWidthNum q = 1200)
    ∧ (∀ (q : GetQuery) (h : String), q.height = some h → strParseInt h = none →
        getHeightNum q = 800)
    ∧ (∀ (b : PostBody) (o : Oracle), statusOf (postScreenshot b o).1 = 400 →
        (postScreenshot b o).1 = .badRequest "URL is required in request body"
        ∨ (postScreenshot b o).1
            = .badRequest "Invalid URL format. Must include http:// or https://") := by
  refine ⟨?_, ?_, ?_, ?_, ?_⟩
  · intro q o u w n hu hne hv hqw hparse hn0 hrange
    have hv' : ¬ isValidUrl u = false := by simp [hv]
    have hwn : getWidthNum q = n := by
      simp [getWidthNum, hqw, qs, jsParseInt, hparse, jsOrInt, hn0]
    have hcond : getWidthNum q < 100 ∨ 4000 < getWidthNum q := by omega
    simp [getScreenshot, hu, hne, hv', hcond]
  · intro q o u hgt n hu hne hv hw1 hw2 hqh hparse hn0 hrange
    have hv' : ¬ isValidUrl u = false := by simp [hv]
    have hwc : ¬ (getWidthNum q < 100 ∨ 4000 < getWidthNum q) := by omega
    have hhn : getHeightNum q = n := by
      simp [getHeightNum, hqh, qs, jsParseInt, hparse, jsOrInt, hn0]
    have hcond : getHeightNum q < 100 ∨ 4000 < getHeightNum q := by omega
    simp [getScreenshot, hu, hne, hv', hwc, hcond]
  · intro q w hqw hparse
    simp [getWidthNum, hqw, qs, jsParseInt, hparse, jsOrInt]
  · intro q h hqh hparse
    simp [getHeightNum, hqh, qs, jsParseInt, hparse, jsOrInt]
  · exact fun b o h => postScreenshot_badRequest_cases b o h

/-- Witness for C2 (amended): width 5000 on GET is rejected with the width
error and no session, and the non-numeric width abc falls back to 1200. -/
theorem claim2_dimension_validation_amended_witness :
    (getScreenshot qWidth5000 oracleAllOk).1
      = .badRequest "Width must be between 100 and 4000 pixels"
    ∧ (getScreenshot qWidth5000 oracleAllOk).2 = []
    ∧ getWidthNum qWidthAbc = 1200 := by
  have h := claim2_dimension_validation_amended.1 qWidth5000
    oracleAllOk "https://example.com" "5000" 5000 rfl (by decide) (by decide) rfl
    (by decide) (by decide) (by decide)
  have h2 := claim2_dimension_validation_amended.2.2.1 qWidthAbc "abc" rfl (by decide)
  exact ⟨h.1, h.2, h2⟩

/-- Counterexample to C3 as stated: the per-navigation timeout is
request-supplied, so the fixed 60000 ms ceiling is not larger than it for
every request — this request passes timeout 70000 to page.goto while the
ceiling stays 60000. -/
theorem claim3_overall_timeout_counterexample :
    getNavTimeout qTimeout70 = some 70000
    ∧ Event.goto (.str "https://example.com") "networkidle" (some 70000)
        ∈ (getScreenshot qTimeout70 oracleAllOk).2
    ∧ ¬ (70000 < overallTimeoutMs) := by decide

/-- C3 (amended): the whole capture pipeline is raced against a fixed
60000 ms wall-clock ceiling, independent of the per-navigation timeout and
larger than that timeout's 30000 ms default (a request-supplied navigation
timeout may exceed it); on both endpoints, when the ceiling elapses first
the outcome is the 500 overall-timeout server error whose message is
distinct from every navigation-failure message, and when the pipeline
settles first its own result decides the response. -/
theorem claim3_overall_timeout_amended :
    overallTimeoutMs = 60000
    ∧ (∀ m : String, "Screenshot request timeout" ≠ "Screenshot failed: " ++ m)
    ∧ (∀ (q : GetQuery) (o : Oracle) (u : String),
        q.url = some u → u ≠ "" → isValidUrl u = true →
        100 ≤ getWidthNum q → getWidthNum q ≤ 4000 →
        100 ≤ getHeightNum q → getHeightNum q ≤ 4000 →
        (overallTimeoutMs ≤ o.pipelineMs →
          (getScreenshot q o).1
              = .serverError "Failed to capture screenshot" "Screenshot request timeout"
          ∧ statusOf (getScreenshot q o).1 = 500)
        ∧ (o.pipelineMs < overallTimeoutMs →
          (getScreenshot q o).1 =
            match (captureScreenshot (.str u) (getCaptureOptions q) o).1 with
            | .ok _ => .okImage "image/webp"
            | .error m => .serverError "Failed to capture screenshot" m))
    ∧ (∀ (b : PostBody) (o : Oracle), jsTruthy b.url = true →
        isValidUrlVal b.url = true → overallTimeoutMs ≤ o.pipelineMs →
        (postScreenshot b o).1
          = .serverError "Failed to capture screenshot" "Screenshot request timeout") := by
  refine ⟨rfl, ?_, ?_, ?_⟩
  · intro m h
    have hd : ("Screenshot request timeout" : String).data
        = ("Screenshot failed: " : String).data ++ m.data := by
      rw [h, String.data_append]
    have h19 := congrArg (fun l => l.take 19) hd
    have hlen : ("Screenshot failed: " : String).data.length = 19 := by decide
    simp only at h19
    rw [← hlen, List.take_left] at h19
    exact absurd h19 (by decide)
  · intro q o u hu hne hv hw1 hw2 hh1 hh2
    have hv' : ¬ isValidUrl u = false := by simp [hv]
    have hwc : ¬ (getWidthNum q < 100 ∨ 4000 < getWidthNum q) := by omega
    have hhc : ¬ (getHeightNum q < 100 ∨ 4000 < getHeightNum q) := by omega
    constructor
    · intro ht
      have hr : race (captureScreenshot (.str u) (getCaptureOptions q) o).1 o.pipelineMs
          = .error "Screenshot request timeout" := by
        simp only [race, if_neg (by omega : ¬ o.pipelineMs < overallTimeoutMs)]
      constructor <;>
        simp [getScreenshot, hu, if_neg hne, if_neg hv', if_neg hwc, if_neg hhc, hr,
          statusOf]
    · intro ht
      have hr : race (captureScreenshot (.str u) (getCaptureOptions q) o).1 o.pipelineMs
          = (captureScreenshot (.str u) (getCaptureOptions q) o).1 := by
        simp only [race, if_pos ht]
      simp only [getScreenshot, hu, if_neg hne, if_neg hv', if_neg hwc, if_neg hhc, hr]
      cases hres : (captureScreenshot (.str u) (getCaptureOptions q) o).1 <;> simp [hres]
  · intro b o ht hv htime
    have ht' : ¬ jsTruthy b.url = false := by simp [ht]
    have hv' : ¬ isValidUrlVal b.url = false := by simp [hv]
    have hr : race (captureScreenshot b.url b.options o).1 o.pipelineMs
        = .error "Screenshot request timeout" := by
      simp only [race, if_neg (by omega : ¬ o.pipelineMs < overallTimeoutMs)]
    simp [postScreenshot, if_neg ht', if_neg hv', hr]

/-- Witness for C3 (amended): a valid request whose pipeline would settle at
exactly 60000 ms loses the race and gets the overall-timeout error; the
overall-timeout message differs from a concrete navigation-timeout
message. -/
theorem claim3_overall_timeout_amended_witness :
    (getScreenshot qValid { oracleAllOk with pipelineMs := 60000 }).1
        = .serverError "Failed to capture screenshot" "Screenshot request timeout"
    ∧ "Screenshot request timeout" ≠ "Screenshot failed: Timeout 30000ms exceeded" := by
  constructor
  · exact ((claim3_overall_timeout_amended.2.2.1 qValid
      { oracleAllOk with pipelineMs := 60000 } "https://example.com" rfl (by decide)
      (by decide) (by decide) (by decide) (by decide) (by decide)).1 (by decide)).1
  · exact claim3_overall_timeout_amended.2.1 "Timeout 30000ms exceeded"

lemma jsDefault_jsOr_num (v : JSVal) (d : Int) :
    jsDefault (jsOr v (.num d)) (.num d) = jsOr v (.num d) := by
  cases v with
  | undef => rfl
  | str s => by_cases hs : s = "" <;> simp [jsOr, jsTruthy, hs, jsDefault]
  | num n => by_cases hn : n = 0 <;> simp [jsOr, jsTruthy, hn, jsDefault]
  | bool b => cases b <;> rfl

/-- Counterexample to C5 as stated: the supplied quality 150 is not clamped
into [1, 100] before encoding — the encoder receives 150 itself (the repo
performs no clamping; any rejection of the out-of-range value is the
encoder's own, surfaced as a server error after a full browser run). -/
theorem claim5_quality_clamping_counterexample :
    getQualityNum qQuality150 = some 150
    ∧ Event.encodeWebp (some 150) ∈ (getScreenshot qQuality150 oracleAllOk).2
    ∧ ¬ ((150 : Int) ≤ 100) := by decide

/-- C5 (amended): the service neither clamps nor validates quality: every
run of captureScreenshot that reaches the encoding step passes parseInt of
the supplied quality (default 80) to the WebP encoder unmodified, on GET
exactly the value getQualityNum computes, and no 400 response of the GET
endpoint concerns quality (the only client errors are about the url and the
dimensions), so an out-of-range quality is never rejected by the service's
own validation. -/
theorem claim5_quality_not_clamped_amended :
    (∀ (url : JSVal) (opts : CaptureOptions) (en cp cc cb : StepOutcome) (ms : Nat),
        Event.encodeWebp (jsParseInt (jsDefault opts.quality (.num 80)))
          ∈ (captureScreenshot url opts ⟨.ok, .ok, .ok, .ok, .ok, en, cp, cc, cb, ms⟩).2)
    ∧ (∀ (q : GetQuery) (u : String) (en cp cc cb : StepOutcome) (ms : Nat),
        q.url = some u → u ≠ "" → isValidUrl u = true →
        100 ≤ getWidthNum q → getWidthNum q ≤ 4000 →
        100 ≤ getHeightNum q → getHeightNum q ≤ 4000 →
        Event.encodeWebp (getQualityNum q)
          ∈ (getScreenshot q ⟨.ok, .ok, .ok, .ok, .ok, en, cp, cc, cb, ms⟩).2)
    ∧ (∀ (q : GetQuery) (o : Oracle), statusOf (getScreenshot q o).1 = 400 →
        (getScreenshot q o).1 = .badRequest "URL parameter is required"
        ∨ (getScreenshot q o).1
            = .badRequest "Invalid URL format. Must include http:// or https://"
        ∨ (getScreenshot q o).1 = .badRequest "Width must be between 100 and 4000 pixels"
        ∨ (getScreenshot q o).1
            = .badRequest "Height must be between 100 and 4000 pixels") := by
  refine ⟨?_, ?_, ?_⟩
  · intro url opts en cp cc cb ms
    cases en <;> simp [captureScreenshot]
  · intro q u en cp cc cb ms hu hne hv hw1 hw2 hh1 hh2
    rw [getScreenshot_trace_valid q ⟨.ok, .ok, .ok, .ok, .ok, en, cp, cc, cb, ms⟩ u
      hu hne hv hw1 hw2 hh1 hh2]
    have hq : jsParseInt (jsDefault (getCaptureOptions q).quality (.num 80))
        = getQualityNum q := by
      simp [getCaptureOptions, getQualityNum, jsDefault_jsOr_num]
    cases en <;> simp [captureScreenshot, hq]
  · exact fun q o h => getScreenshot_badRequest_cases q o h

/-- Witness for C5 (amended): a GET request with quality 95 encodes at
exactly 95. -/
theorem claim5_quality_not_clamped_amended_witness :
    Event.encodeWebp (some 95)
      ∈ (getScreenshot
          { emptyQuery with url := some "https://example.com", quality := some "95" }
          ⟨.ok, .ok, .ok, .ok, .ok, .ok, .ok, .ok, .ok, 1000⟩).2 := by
  have h := claim5_quality_not_clamped_amended.2.1
    { emptyQuery with url := some "https://example.com", quality := some "95" }
    "https://example.com" .ok .ok .ok .ok 1000 rfl (by decide) (by decide)
    (by decide) (by decide) (by decide) (by decide)
  simpa using h

end UrlToImage

